import Mathlib

/-!
Verification of the "Chat with your PDF" service (`src/app/main.py`) and its
companion browser UI (`src/gradio_ui.py`).

The two request handlers (`upload_document`, `ask_question`) are embedded as
pure functions over an explicit `ServerState` (the two module-level globals
`vector_store` and `rag_chain`, plus the set of temporary files on disk).
Calls into external libraries and hosted services (PDF loading and splitting,
embedding, RAG-chain construction, chain invocation) are parameters of the
embedding: each is an oracle giving the outcome of the corresponding external
call, which may be a Python exception (`PyErr`).
-/

namespace PdfChat

/-- Exceptions that flow through the handlers in `src/app/main.py`:
`google_exceptions.ResourceExhausted`, `fastapi.HTTPException`, and any other
`Exception` (collapsed to its message string). -/
inductive PyErr where
  | resourceExhausted (msg : String)
  | httpExc (status : Nat) (detail : String)
  | generic (msg : String)
deriving DecidableEq

/-- A LangChain `Document` chunk: `page_content` plus a `metadata` dict
(modelled as an association list). -/
structure Chunk where
  page_content : String
  metadata : List (String × String)
deriving DecidableEq

/-- A chromadb collection: its unique name and its stored entries
`(id, embedding, document text, metadata)`.  Embedding vectors are modelled
as integer lists; the claims under verification only concern their count. -/
structure Collection where
  name : String
  entries : List (String × List Int × String × List (String × String))
deriving DecidableEq

/-- Pairs up four parallel lists (the shape of a chromadb `add` call). -/
def zip4 {α β γ δ : Type} : List α → List β → List γ → List δ → List (α × β × γ × δ)
  | a :: as, b :: bs, c :: cs, d :: ds => (a, b, c, d) :: zip4 as bs cs ds
  | _, _, _, _ => []

/-- `db._collection.add(embeddings=…, documents=…, metadatas=…, ids=…)`
(src/app/main.py lines 111-116): the only write operation on the index. -/
def Collection.add (c : Collection) (ids : List String) (embeddings : List (List Int))
    (documents : List String) (metadatas : List (List (String × String))) : Collection :=
  { c with entries := c.entries ++ zip4 ids embeddings documents metadatas }

/-- The two module-level globals of `src/app/main.py` (lines 40-41):
`vector_store` and `rag_chain`.  A RAG chain is opaque to the claims;
it is modelled as a `Nat` token issued by the chain-creation oracle. -/
structure Session where
  vector_store : Option Collection
  rag_chain : Option Nat
deriving DecidableEq

/-- Whole-process state: the Session globals plus the set of files currently
existing in the temporary directory (paths, duplicate-free by construction). -/
structure ServerState where
  session : Session
  disk : List String
deriving DecidableEq

/-- An HTTP response as FastAPI produces it from a return value or a raised
`HTTPException`: status code and payload/detail text. -/
structure HttpResponse where
  status : Nat
  body : String
deriving DecidableEq

/-- The parsed `/upload` multipart request: the declared content type, the
client-supplied filename, and the size in bytes of the uploaded content. -/
structure UploadReq where
  contentType : String
  filename : String
  fileSize : Nat
deriving DecidableEq

/-- The `/ask` request model (`AskRequest`, src/app/main.py lines 45-47). -/
structure AskRequest where
  question : String
deriving DecidableEq

/-- Outcomes of the external calls made during one `/upload` request:
`loadSplit` is `load_and_split_pdf` (PyPDFLoader + splitter, lines 51-69),
`embed` is `embeddings_model.embed_documents` (line 97), `uuids` is the
stream of `uuid.uuid4()` strings drawn during the request (in call order),
and `chainRes` is `create_rag_chain` (lines 125-165). -/
structure UploadEnv where
  tempDir : String
  loadSplit : String → Except PyErr (List Chunk)
  embed : List String → Except PyErr (List (List Int))
  uuids : Nat → String
  chainRes : Collection → Except PyErr Nat

/-- Outcome of `rag_chain.invoke` for the `/ask` handler: given the chain
token and the question, the external pipeline returns a response dict
(association list) or raises. -/
structure AskEnv where
  invoke : Nat → String → Except PyErr (List (String × String))

/-! ## Python string helpers -/

/-- One pass of Python `str.replace(old, new)` over the character list, for
`old = o :: os` (non-empty): scan left to right, replace each non-overlapping
occurrence, skip past it.  `fuel` bounds the recursion; `fuel ≥ length` makes
it total and is what `pyReplace` supplies. -/
def replaceFuel (o : Char) (os new : List Char) (fuel : Nat) (l : List Char) : List Char :=
  match l with
  | [] => []
  | c :: rest =>
    match fuel with
    | 0 => c :: rest
    | fuel + 1 =>
      if c == o && os.isPrefixOf rest then
        new ++ replaceFuel o os new fuel (rest.drop os.length)
      else
        c :: replaceFuel o os new fuel rest

/-- Python `s.replace(old, new)` for non-empty `old` (the only uses in the
source are `replace("..", "_")` and `replace("/", "_")`). -/
def pyReplace (s old new : String) : String :=
  match old.data with
  | [] => s
  | o :: os => ⟨replaceFuel o os new.data s.data.length s.data⟩

/-- `file.filename.replace("..", "_").replace("/", "_")`
(src/app/main.py line 189). -/
def sanitize_filename (filename : String) : String :=
  pyReplace (pyReplace filename ".." "_") "/" "_"

/-- Boolean "pat occurs as a contiguous substring" on character lists. -/
def listInfix (pat : List Char) : List Char → Bool
  | [] => pat.isPrefixOf []
  | c :: rest => pat.isPrefixOf (c :: rest) || listInfix pat rest

/-- `pat` occurs as a contiguous substring of `s`. -/
def strContains (s pat : String) : Bool := listInfix pat.data s.data

/-- Python `dict.get(key, default)` on an association-list dict. -/
def dictGet (d : List (String × String)) (key dflt : String) : String :=
  match d.find? (fun kv => kv.1 == key) with
  | some kv => kv.2
  | none => dflt

/-- Writing a file at `p`: afterwards `p` exists on disk (set insert). -/
def diskAdd (d : List String) (p : String) : List String :=
  if p ∈ d then d else p :: d

/-! ## The ingestion pipeline (`create_vector_store`) -/

/-- The data prepared for the single `db._collection.add` call of
`create_vector_store` (src/app/main.py lines 77-116): the freshly created
in-memory collection (`target`, empty, named `pdf_chat_<uuid>`) and the four
parallel sequences.  `documents` are the chunk texts (line 93), `embeddings`
the batch-embedding result force-cast to plain lists (lines 97, 101), `ids`
one fresh `uuid4` per document (line 104), `metadatas` the chunk metadata
(line 107).  Fails if the embedding call fails. -/
structure AddCall where
  ids : List String
  embeddings : List (List Int)
  documents : List String
  metadatas : List (List (String × String))
  target : Collection
deriving DecidableEq

/-- Builds the `AddCall` of `create_vector_store`.  The uuid stream is used
in source order: index 0 for the collection name (line 85), indices 1… for
the per-chunk ids (line 104). -/
def vector_store_add_call (embed : List String → Except PyErr (List (List Int)))
    (uuids : Nat → String) (chunks : List Chunk) : Except PyErr AddCall :=
  let db0 : Collection := { name := "pdf_chat_" ++ uuids 0, entries := [] }
  let documents := chunks.map (·.page_content)
  match embed documents with
  | .error e => .error e
  | .ok embs =>
    let embeddings := embs.map (fun e => e)
    let ids := (List.range documents.length).map (fun i => uuids (i + 1))
    let metadatas := chunks.map (·.metadata)
    .ok { ids := ids, embeddings := embeddings, documents := documents,
          metadatas := metadatas, target := db0 }

/-- `create_vector_store(chunks)` (src/app/main.py lines 71-123): prepare the
data, then perform the one `add` into the fresh collection. -/
def create_vector_store (embed : List String → Except PyErr (List (List Int)))
    (uuids : Nat → String) (chunks : List Chunk) : Except PyErr Collection :=
  match vector_store_add_call embed uuids chunks with
  | .error e => .error e
  | .ok call => .ok (call.target.add call.ids call.embeddings call.documents call.metadatas)

/-! ## The `/upload` handler -/

/-- `os.path.join(TEMP_DIR, safe_filename)` (src/app/main.py line 190). -/
def uploadPath (env : UploadEnv) (req : UploadReq) : String :=
  env.tempDir ++ "/" ++ sanitize_filename req.filename

/-- The body of the `try:` block of `upload_document` after the file has been
written (src/app/main.py lines 197-210), threading the Session explicitly:
size check (lines 200-202), `load_and_split_pdf` (line 205), the global
assignment `vector_store = create_vector_store(chunks)` (line 206), then the
global assignment `rag_chain = create_rag_chain(vector_store)` (line 207).
Returns the raised exception or the success message, together with the
Session as the assignments left it. -/
def upload_try (env : UploadEnv) (req : UploadReq) (filePath : String) (sess : Session) :
    Except PyErr String × Session :=
  if req.fileSize = 0 then
    (.error (.httpExc 400 "The uploaded PDF file is empty."), sess)
  else
    match env.loadSplit filePath with
    | .error e => (.error e, sess)
    | .ok chunks =>
      match create_vector_store env.embed env.uuids chunks with
      | .error e => (.error e, sess)
      | .ok db =>
        let sess1 : Session := { sess with vector_store := some db }
        match env.chainRes db with
        | .error e => (.error e, sess1)
        | .ok chain =>
          (.ok ("Successfully processed '" ++ req.filename ++ "'. Ready to answer questions."),
           { sess1 with rag_chain := some chain })

/-- `upload_document` (src/app/main.py lines 178-224): content-type guard
(lines 183-184), temp-file write (lines 189-195), the `try:` body, the
`except` clauses translating exceptions to responses (lines 212-219:
`ResourceExhausted` → 400 quota message, `HTTPException` re-raised as-is,
anything else → 500), and the `finally:` removal of the temp file
(lines 220-224). -/
def upload_document (env : UploadEnv) (req : UploadReq) (st : ServerState) :
    HttpResponse × ServerState :=
  if req.contentType ≠ "application/pdf" then
    ({ status := 400, body := "Invalid file type. Only PDFs are allowed." }, st)
  else
    let filePath := uploadPath env req
    let disk1 := diskAdd st.disk filePath
    let r := upload_try env req filePath st.session
    let resp : HttpResponse :=
      match r.1 with
      | .ok msg => { status := 200, body := msg }
      | .error (.resourceExhausted m) =>
          { status := 400,
            body := "Google API quota exceeded. Please check your plan. Error: " ++ m }
      | .error (.httpExc s d) => { status := s, body := d }
      | .error (.generic m) => { status := 500, body := "An unexpected error occurred: " ++ m }
    let disk2 := if filePath ∈ disk1 then disk1.filter (fun p => p != filePath) else disk1
    (resp, { session := r.2, disk := disk2 })

/-! ## The `/ask` handler -/

/-- `ask_question` (src/app/main.py lines 226-244): not-ready guard
(lines 229-230), `rag_chain.invoke` (line 234), answer extraction with the
`"No answer found."` fallback (line 237), `ResourceExhausted` → 400 quota
message (lines 239-241), anything else → 500 (lines 242-244).  The handler
declares no globals and assigns none, so the state is returned unchanged. -/
def ask_question (env : AskEnv) (req : AskRequest) (st : ServerState) :
    HttpResponse × ServerState :=
  (match st.session.rag_chain with
   | none =>
     { status := 400,
       body := "No document has been processed. Please upload a PDF to /upload first." }
   | some chain =>
     match env.invoke chain req.question with
     | .ok response => { status := 200, body := dictGet response "answer" "No answer found." }
     | .error (.resourceExhausted m) =>
         { status := 400,
           body := "Google API quota exceeded. Please check your plan. Error: " ++ m }
     | .error (.httpExc _ d) => { status := 500, body := "An unexpected error occurred: " ++ d }
     | .error (.generic m) => { status := 500, body := "An unexpected error occurred: " ++ m },
   st)

/-! ## The UI typing-effect generator (`src/gradio_ui.py`) -/

/-- Python `range(start, stop, step)` for `step > 0`. -/
def rangeStep (start stop step : Nat) : List Nat :=
  (List.range ((stop - start + step - 1) / step)).map (fun k => start + step * k)

/-- The values yielded by the success path of the UI's `ask_question`
generator (src/gradio_ui.py lines 94-96):
`for i in range(0, len(answer), 3): yield answer[:i+3]`,
with the answer modelled as its character list. -/
def ui_ask_yields (answer : List Char) : List (List Char) :=
  (rangeStep 0 answer.length 3).map (fun i => answer.take (i + 3))

/-! ## Proof-side reformulations of the string helpers -/

/-- Structural form of `replace("..", "_")`. -/
def replaceDots : List Char → List Char
  | [] => []
  | [c] => [c]
  | c :: d :: rest =>
    if c == '.' && d == '.' then '_' :: replaceDots rest
    else c :: replaceDots (d :: rest)

/-- Structural form of `replace("/", "_")`. -/
def replaceSlash : List Char → List Char
  | [] => []
  | c :: rest => (if c == '/' then '_' else c) :: replaceSlash rest

/-- `true` iff the list has no two adjacent dots. -/
def noDD : List Char → Bool
  | c :: d :: rest => !(c == '.' && d == '.') && noDD (d :: rest)
  | _ => true

/-- Head-is-a-dot test. -/
def headDot : List Char → Bool
  | [] => false
  | c :: _ => c == '.'

/-! ## Concrete instances used by witnesses and counterexamples -/

/-- A one-chunk document for concrete runs. -/
def chunkA : Chunk := { page_content := "alpha", metadata := [("page", "1")] }

/-- Environment in which every external call succeeds. -/
def envOk : UploadEnv :=
  { tempDir := "/tmp/t",
    loadSplit := fun _ => .ok [chunkA],
    embed := fun docs => .ok (docs.map (fun _ => [1, 2])),
    uuids := fun _ => "u",
    chainRes := fun _ => .ok 7 }

/-- Environment in which `create_rag_chain` raises a generic exception after
the vector store has been created and assigned. -/
def envChainFail : UploadEnv := { envOk with chainRes := fun _ => .error (.generic "boom") }

/-- Environment in which the embedding call raises `ResourceExhausted`. -/
def envQuota : UploadEnv := { envOk with embed := fun _ => .error (.resourceExhausted "q") }

/-- A well-formed PDF upload request. -/
def reqPdf : UploadReq := { contentType := "application/pdf", filename := "doc.pdf", fileSize := 10 }

/-- The same request but with a zero-byte file. -/
def reqPdf0 : UploadReq := { reqPdf with fileSize := 0 }

/-- The same request but with a non-PDF content type. -/
def reqTxt : UploadReq := { reqPdf with contentType := "text/plain" }

/-- The pristine server state: empty Session, empty temp dir. -/
def st0 : ServerState := { session := { vector_store := none, rag_chain := none }, disk := [] }

/-- A server state whose Session is ready (a document has been processed). -/
def stReady : ServerState :=
  { session := { vector_store := some { name := "c", entries := [] }, rag_chain := some 7 },
    disk := [] }

/-- An ask environment in which `invoke` raises `ResourceExhausted`. -/
def askEnvQuota : AskEnv := { invoke := fun _ _ => .error (.resourceExhausted "q") }

/-- An ask environment in which `invoke` succeeds. -/
def askEnvOk : AskEnv := { invoke := fun _ _ => .ok [("answer", "hi")] }

/-- A concrete question. -/
def askReq1 : AskRequest := { question := "what" }

/-! # Theorems -/

/-! ## Sanitization (`safe_filename`) -/

theorem replaceFuel_dots_eq (fuel : Nat) :
    ∀ l : List Char, l.length ≤ fuel →
      replaceFuel '.' ['.'] ['_'] fuel l = replaceDots l := by
  induction fuel with
  | zero =>
    intro l hl
    have : l = [] := List.eq_nil_of_length_eq_zero (Nat.le_zero.mp hl)
    subst this
    rfl
  | succ fuel ih =>
    intro l hl
    match l with
    | [] => rfl
    | [c] =>
      by_cases hc : c = '.'
      · subst hc
        simp [replaceFuel, replaceDots, List.isPrefixOf]
      · simp [replaceFuel, replaceDots, List.isPrefixOf, hc]
    | c :: d :: rest =>
      by_cases hc : c = '.'
      · by_cases hd : d = '.'
        · subst hc; subst hd
          have hrest : rest.length ≤ fuel := by
            simp at hl; omega
          simp [replaceFuel, replaceDots, List.isPrefixOf, ih rest hrest]
        · have htail : (d :: rest).length ≤ fuel := by
            simp at hl ⊢; omega
          subst hc
          simp [replaceFuel, replaceDots, List.isPrefixOf, hd, Ne.symm hd,
            ih (d :: rest) htail]
      · have htail : (d :: rest).length ≤ fuel := by
          simp at hl ⊢; omega
        simp [replaceFuel, replaceDots, List.isPrefixOf, hc, ih (d :: rest) htail]

theorem replaceFuel_slash_eq (fuel : Nat) :
    ∀ l : List Char, l.length ≤ fuel →
      replaceFuel '/' [] ['_'] fuel l = replaceSlash l := by
  induction fuel with
  | zero =>
    intro l hl
    have : l = [] := List.eq_nil_of_length_eq_zero (Nat.le_zero.mp hl)
    subst this
    rfl
  | succ fuel ih =>
    intro l hl
    match l with
    | [] => rfl
    | c :: rest =>
      have hrest : rest.length ≤ fuel := by simp at hl; omega
      by_cases hc : c = '/'
      · subst hc
        simp [replaceFuel, replaceSlash, List.isPrefixOf, ih rest hrest]
      · simp [replaceFuel, replaceSlash, List.isPrefixOf, hc, ih rest hrest]

theorem sanitize_data (s : String) :
    (sanitize_filename s).data = replaceSlash (replaceDots s.data) := by
  have h1 : pyReplace s ".." "_" = ⟨replaceFuel '.' ['.'] ['_'] s.data.length s.data⟩ := rfl
  have h2 : (pyReplace s ".." "_").data = replaceDots s.data := by
    rw [h1]
    exact replaceFuel_dots_eq s.data.length s.data (Nat.le_refl _)
  show (pyReplace (pyReplace s ".." "_") "/" "_").data = _
  have h3 : pyReplace (pyReplace s ".." "_") "/" "_" =
      ⟨replaceFuel '/' [] ['_'] (pyReplace s ".." "_").data.length (pyReplace s ".." "_").data⟩ :=
    rfl
  rw [h3]
  show replaceFuel '/' [] ['_'] _ _ = _
  rw [h2]
  exact replaceFuel_slash_eq _ _ (Nat.le_refl _)

theorem noDD_cons (x : Char) (xs : List Char) :
    noDD (x :: xs) = ((!(x == '.' && headDot xs)) && noDD xs) := by
  cases xs with
  | nil => simp [noDD, headDot]
  | cons y ys => rfl

theorem headDot_replaceSlash (l : List Char) : headDot (replaceSlash l) = headDot l := by
  cases l with
  | nil => rfl
  | cons c rest =>
    by_cases hc : c = '/'
    · subst hc; simp [replaceSlash, headDot]
    · simp [replaceSlash, headDot, hc]

theorem noSlash_replaceSlash (l : List Char) : '/' ∉ replaceSlash l := by
  induction l with
  | nil => simp [replaceSlash]
  | cons c rest ih =>
    by_cases hc : c = '/'
    · subst hc; simp [replaceSlash, ih]
    · simp [replaceSlash, hc, ih]
      exact fun h => absurd h.symm hc

theorem headDot_replaceDots_ne (d : Char) (rest : List Char) (hd : d ≠ '.') :
    headDot (replaceDots (d :: rest)) = false := by
  cases rest with
  | nil => simp [replaceDots, headDot, hd]
  | cons e rest' => simp [replaceDots, headDot, hd]

theorem noDD_replaceDots (l : List Char) : noDD (replaceDots l) = true := by
  induction l using replaceDots.induct with
  | case1 => rfl
  | case2 c => rfl
  | case3 c d rest h ih =>
    rw [replaceDots, if_pos h, noDD_cons]
    simp [ih]
  | case4 c d rest h ih =>
    rw [replaceDots, if_neg h]
    by_cases hc : c = '.'
    · subst hc
      have hd : d ≠ '.' := by
        intro hd; subst hd; simp at h
      rw [noDD_cons, headDot_replaceDots_ne d rest hd]
      simp [ih]
    · rw [noDD_cons]
      simp [hc, ih]

theorem noDD_replaceSlash (l : List Char) (h : noDD l = true) :
    noDD (replaceSlash l) = true := by
  induction l with
  | nil => rfl
  | cons c rest ih =>
    rw [noDD_cons] at h
    rw [show replaceSlash (c :: rest) = (if c == '/' then '_' else c) :: replaceSlash rest from rfl,
      noDD_cons, headDot_replaceSlash]
    simp only [Bool.and_eq_true, Bool.not_eq_true'] at h ⊢
    refine ⟨?_, ih h.2⟩
    by_cases hc : c = '/'
    · subst hc; simp
    · simp [hc]
      exact fun hdot => by simpa [hdot] using h.1

theorem noDD_append_dd (p s : List Char) : noDD (p ++ '.' :: '.' :: s) = false := by
  induction p with
  | nil => simp [noDD]
  | cons x p' ih =>
    rw [List.cons_append, noDD_cons, ih]
    simp

/-- C9: the sanitized filename `filename.replace("..", "_").replace("/", "_")`
computed by `/upload` contains no `/` character and no `..` substring, so the
joined temporary path stays directly inside the temporary directory. -/
theorem upload_sanitize_safe (filename : String) :
    '/' ∉ (sanitize_filename filename).data ∧
    ∀ l r : List Char, (sanitize_filename filename).data ≠ l ++ '.' :: '.' :: r := by
  have hdata := sanitize_data filename
  constructor
  · rw [hdata]
    exact noSlash_replaceSlash _
  · intro l r h
    rw [hdata] at h
    have h1 : noDD (replaceSlash (replaceDots filename.data)) = true :=
      noDD_replaceSlash _ (noDD_replaceDots _)
    rw [h, noDD_append_dd] at h1
    exact Bool.false_ne_true h1

/-- Witness for C9 at a traversal-attempt filename. -/
theorem upload_sanitize_safe_witness :
    '/' ∉ (sanitize_filename "../../etc/passwd").data :=
  (upload_sanitize_safe "../../etc/passwd").1

/-! ## Substring facts used for response messages -/

theorem isPrefixOf_append_right (p : List Char) :
    ∀ a b : List Char, p.isPrefixOf a = true → p.isPrefixOf (a ++ b) = true := by
  induction p with
  | nil => intro a b _; simp [List.isPrefixOf]
  | cons x p ih =>
    intro a b h
    cases a with
    | nil => simp [List.isPrefixOf] at h
    | cons y a =>
      simp only [List.isPrefixOf, Bool.and_eq_true] at h
      simp only [List.cons_append, List.isPrefixOf, Bool.and_eq_true]
      exact ⟨h.1, ih a b h.2⟩

theorem listInfix_append (pat a b : List Char) (h : listInfix pat a = true) :
    listInfix pat (a ++ b) = true := by
  induction a with
  | nil =>
    have hp : pat = [] := by
      cases pat with
      | nil => rfl
      | cons x xs => simp [listInfix, List.isPrefixOf] at h
    subst hp
    cases b with
    | nil => rfl
    | cons c cs => simp [listInfix, List.isPrefixOf]
  | cons c rest ih =>
    rw [List.cons_append]
    simp only [listInfix, Bool.or_eq_true] at h ⊢
    rcases h with h | h
    · exact Or.inl (by simpa using isPrefixOf_append_right pat (c :: rest) b h)
    · exact Or.inr (ih h)

theorem strContains_append_left (s t pat : String) (h : strContains s pat = true) :
    strContains (s ++ t) pat = true := by
  show listInfix pat.data (s ++ t).data = true
  rw [show (s ++ t).data = s.data ++ t.data from rfl]
  exact listInfix_append _ _ _ h

/-! ## `/upload` and `/ask` behaviour -/

theorem mem_diskAdd (d : List String) (p : String) : p ∈ diskAdd d p := by
  unfold diskAdd
  split
  · assumption
  · exact List.mem_cons_self p d

/-- C2: whenever `/upload` writes the uploaded file into the temporary
directory (i.e. the content-type guard passed), the temporary file no longer
exists on disk when the handler exits, whatever the pipeline outcome. -/
theorem upload_temp_cleanup (env : UploadEnv) (req : UploadReq) (st : ServerState)
    (hct : req.contentType = "application/pdf") :
    uploadPath env req ∉ (upload_document env req st).2.disk := by
  have hmem := mem_diskAdd st.disk (uploadPath env req)
  simp only [upload_document, hct, ne_eq, not_true_eq_false, if_false]
  rw [if_pos hmem]
  simp [List.mem_filter]

/-- Witness for C2: a concrete successful upload leaves no temp file. -/
theorem upload_temp_cleanup_witness :
    uploadPath envOk reqPdf ∉ (upload_document envOk reqPdf st0).2.disk :=
  upload_temp_cleanup envOk reqPdf st0 rfl

/-- C4: a zero-byte upload yields HTTP 400 (not 500) with a message
mentioning that the file is empty, and leaves the Session unchanged. -/
theorem upload_empty_file (env : UploadEnv) (req : UploadReq) (st : ServerState)
    (hct : req.contentType = "application/pdf") (hsz : req.fileSize = 0) :
    (upload_document env req st).1.status = 400 ∧
    (upload_document env req st).1.status ≠ 500 ∧
    strContains (upload_document env req st).1.body "empty" = true ∧
    (upload_document env req st).2.session = st.session := by
  refine ⟨?_, ?_, ?_, ?_⟩
  · simp [upload_document, upload_try, hct, hsz]
  · simp [upload_document, upload_try, hct, hsz]
  · have hb : (upload_document env req st).1.body = "The uploaded PDF file is empty." := by
      simp [upload_document, upload_try, hct, hsz]
    rw [hb]
    decide
  · simp [upload_document, upload_try, hct, hsz]

/-- Witness for C4 at a concrete zero-byte request. -/
theorem upload_empty_file_witness :
    (upload_document envOk reqPdf0 st0).1.status = 400 ∧
    (upload_document envOk reqPdf0 st0).2.session = st0.session :=
  ⟨(upload_empty_file envOk reqPdf0 st0 rfl rfl).1,
   (upload_empty_file envOk reqPdf0 st0 rfl rfl).2.2.2⟩

/-- C5: `/ask` while no RAG chain is set returns HTTP 400 with the
"no document has been processed" message, and the response does not depend
on the external-call oracle (no external service is invoked). -/
theorem ask_no_document (env : AskEnv) (req : AskRequest) (st : ServerState)
    (h : st.session.rag_chain = none) :
    (ask_question env req st).1.status = 400 ∧
    strContains (ask_question env req st).1.body "No document has been processed" = true ∧
    ∀ env2 : AskEnv, ask_question env2 req st = ask_question env req st := by
  refine ⟨?_, ?_, ?_⟩
  · simp [ask_question, h]
  · have hb : (ask_question env req st).1.body =
        "No document has been processed. Please upload a PDF to /upload first." := by
      simp [ask_question, h]
    rw [hb]
    decide
  · intro env2
    simp [ask_question, h]

/-- Witness for C5 on the pristine state. -/
theorem ask_no_document_witness :
    (ask_question askEnvOk askReq1 st0).1.status = 400 :=
  (ask_no_document askEnvOk askReq1 st0 rfl).1

/-- C6: a non-PDF content type makes `/upload` return HTTP 400 immediately:
the state (disk and Session) is exactly the input state, and the response
does not depend on the external-call oracle (no ingestion step runs). -/
theorem upload_invalid_content_type (env : UploadEnv) (req : UploadReq) (st : ServerState)
    (h : req.contentType ≠ "application/pdf") :
    upload_document env req st =
      ({ status := 400, body := "Invalid file type. Only PDFs are allowed." }, st) ∧
    ∀ env2 : UploadEnv, upload_document env2 req st = upload_document env req st := by
  constructor
  · simp [upload_document, h]
  · intro env2
    simp [upload_document, h]

/-- Witness for C6 at a text/plain upload. -/
theorem upload_invalid_content_type_witness :
    upload_document envOk reqTxt st0 =
      ({ status := 400, body := "Invalid file type. Only PDFs are allowed." }, st0) :=
  (upload_invalid_content_type envOk reqTxt st0 (by decide)).1

/-- C7: `/ask` never mutates the process state: whatever the Session and the
outcome of the chain invocation, the state after the request equals the state
before it. -/
theorem ask_preserves_session (env : AskEnv) (req : AskRequest) (st : ServerState) :
    (ask_question env req st).2 = st := rfl

/-! ## The UI typing-effect generator -/

/-- C10: on a non-empty answer the UI generator yields prefixes of the answer
of strictly increasing length ending with the complete answer; on an empty
answer it yields nothing. -/
theorem ui_typing_effect (answer : List Char) :
    (∀ y ∈ ui_ask_yields answer, y <+: answer) ∧
    List.Pairwise (fun a b : List Char => a.length < b.length) (ui_ask_yields answer) ∧
    (answer = [] → ui_ask_yields answer = []) ∧
    (answer ≠ [] → (ui_ask_yields answer).getLast? = some answer) := by
  refine ⟨?_, ?_, ?_, ?_⟩
  · intro y hy
    simp only [ui_ask_yields, rangeStep, List.map_map, List.mem_map, Function.comp] at hy
    obtain ⟨k, _, rfl⟩ := hy
    exact ⟨answer.drop (0 + 3 * k + 3), List.take_append_drop _ _⟩
  · simp only [ui_ask_yields, rangeStep, List.map_map]
    rw [List.pairwise_map]
    refine (List.pairwise_lt_range _).imp_of_mem ?_
    intro a b ha hb hab
    simp only [Function.comp, List.length_take]
    rw [List.mem_range] at ha hb
    omega
  · intro h
    subst h
    rfl
  · intro hne
    have hn : 0 < answer.length := List.length_pos.mpr hne
    simp only [ui_ask_yields, rangeStep, List.map_map]
    obtain ⟨K, hK⟩ : ∃ K, (answer.length - 0 + 3 - 1) / 3 = K + 1 :=
      ⟨(answer.length - 0 + 3 - 1) / 3 - 1, by omega⟩
    rw [hK, List.range_succ, List.map_append, List.map_cons, List.map_nil,
      List.getLast?_concat]
    simp only [Function.comp]
    congr 1
    exact List.take_of_length_le (by omega)

/-- Witness for C10 on the five-character answer "hello". -/
theorem ui_typing_effect_witness :
    (ui_ask_yields "hello".data).getLast? = some "hello".data :=
  (ui_typing_effect "hello".data).2.2.2 (by decide)

/-! ## Quota errors (C3) -/

/-- C3: if an external call raises `ResourceExhausted` during the `/upload`
pipeline, or during the `/ask` chain invocation, the endpoint returns
HTTP 400 (never 500) with a message mentioning the quota. -/
theorem quota_maps_to_400 (env : UploadEnv) (req : UploadReq) (st : ServerState) (m : String)
    (aenv : AskEnv) (areq : AskRequest) (st2 : ServerState) (chain : Nat) (m2 : String)
    (hct : req.contentType = "application/pdf")
    (hup : (upload_try env req (uploadPath env req) st.session).1 =
      .error (.resourceExhausted m))
    (hchain : st2.session.rag_chain = some chain)
    (hask : aenv.invoke chain areq.question = .error (.resourceExhausted m2)) :
    ((upload_document env req st).1.status = 400 ∧
     (upload_document env req st).1.status ≠ 500 ∧
     strContains (upload_document env req st).1.body "quota" = true) ∧
    ((ask_question aenv areq st2).1.status = 400 ∧
     (ask_question aenv areq st2).1.status ≠ 500 ∧
     strContains (ask_question aenv areq st2).1.body "quota" = true) := by
  have hb1 : (upload_document env req st).1 =
      { status := 400,
        body := "Google API quota exceeded. Please check your plan. Error: " ++ m } := by
    simp [upload_document, hct, hup]
  have hb2 : (ask_question aenv areq st2).1 =
      { status := 400,
        body := "Google API quota exceeded. Please check your plan. Error: " ++ m2 } := by
    simp [ask_question, hchain, hask]
  rw [hb1, hb2]
  refine ⟨⟨rfl, by simp, ?_⟩, rfl, by simp, ?_⟩ <;>
    exact strContains_append_left _ _ _ (by decide)

/-- Witness for C3: quota failure in the embedding call during `/upload` and
in the chain invocation during `/ask`. -/
theorem quota_maps_to_400_witness :
    (upload_document envQuota reqPdf st0).1.status = 400 ∧
    (ask_question askEnvQuota askReq1 stReady).1.status = 400 :=
  ⟨(quota_maps_to_400 envQuota reqPdf st0 "q" askEnvQuota askReq1 stReady 7 "q"
      rfl rfl rfl rfl).1.1,
   (quota_maps_to_400 envQuota reqPdf st0 "q" askEnvQuota askReq1 stReady 7 "q"
      rfl rfl rfl rfl).2.1⟩

/-! ## Session replacement on `/upload` (C1) -/

/-- Counterexample to C1 as stated: with every step succeeding except
`create_rag_chain`, the request fails (HTTP 500) yet the Session is *not*
left as it was — `vector_store` has already been replaced (while `rag_chain`
kept its prior value), a partial update. -/
theorem upload_atomicity_counterexample :
    (upload_document envChainFail reqPdf st0).1.status = 500 ∧
    (upload_document envChainFail reqPdf st0).2.session.vector_store ≠
      st0.session.vector_store ∧
    (upload_document envChainFail reqPdf st0).2.session.rag_chain =
      st0.session.rag_chain := by
  refine ⟨rfl, ?_, rfl⟩
  decide

/-- C1 (amended): `/upload` installs exactly the Session produced by the
try-block.  On success both Session parts are replaced together with the
freshly built store and chain.  On failure `rag_chain` always keeps its prior
value, and `vector_store` keeps its prior value *unless* the failure occurred
in RAG-chain creation after a successful vector-store creation, in which case
`vector_store` alone has been replaced by the new store. -/
theorem upload_session_replacement (env : UploadEnv) (req : UploadReq) (st : ServerState)
    (hct : req.contentType = "application/pdf") :
    ((upload_document env req st).2.session =
      (upload_try env req (uploadPath env req) st.session).2) ∧
    (∀ msg, (upload_try env req (uploadPath env req) st.session).1 = .ok msg →
      ∃ chunks db chain,
        env.loadSplit (uploadPath env req) = .ok chunks ∧
        create_vector_store env.embed env.uuids chunks = .ok db ∧
        env.chainRes db = .ok chain ∧
        (upload_try env req (uploadPath env req) st.session).2 =
          { vector_store := some db, rag_chain := some chain }) ∧
    (∀ e, (upload_try env req (uploadPath env req) st.session).1 = .error e →
      (upload_try env req (uploadPath env req) st.session).2.rag_chain =
        st.session.rag_chain ∧
      ((upload_try env req (uploadPath env req) st.session).2.vector_store =
        st.session.vector_store ∨
       ∃ chunks db e2,
         env.loadSplit (uploadPath env req) = .ok chunks ∧
         create_vector_store env.embed env.uuids chunks = .ok db ∧
         env.chainRes db = .error e2 ∧
         (upload_try env req (uploadPath env req) st.session).2.vector_store = some db)) := by
  refine ⟨?_, ?_, ?_⟩
  · simp [upload_document, hct]
  · intro msg hok
    by_cases hsz : req.fileSize = 0
    · simp [upload_try, hsz] at hok
    · cases hls : env.loadSplit (uploadPath env req) with
      | error e1 => simp [upload_try, hsz, hls] at hok
      | ok chunks =>
        cases hcv : create_vector_store env.embed env.uuids chunks with
        | error e1 => simp [upload_try, hsz, hls, hcv] at hok
        | ok db =>
          cases hcr : env.chainRes db with
          | error e1 => simp [upload_try, hsz, hls, hcv, hcr] at hok
          | ok chain =>
            exact ⟨chunks, db, chain, rfl, hcv, hcr,
              by simp [upload_try, hsz, hls, hcv, hcr]⟩
  · intro e he
    by_cases hsz : req.fileSize = 0
    · exact ⟨by simp [upload_try, hsz], Or.inl (by simp [upload_try, hsz])⟩
    · cases hls : env.loadSplit (uploadPath env req) with
      | error e1 =>
        exact ⟨by simp [upload_try, hsz, hls], Or.inl (by simp [upload_try, hsz, hls])⟩
      | ok chunks =>
        cases hcv : create_vector_store env.embed env.uuids chunks with
        | error e1 =>
          exact ⟨by simp [upload_try, hsz, hls, hcv],
            Or.inl (by simp [upload_try, hsz, hls, hcv])⟩
        | ok db =>
          cases hcr : env.chainRes db with
          | error e2 =>
            exact ⟨by simp [upload_try, hsz, hls, hcv, hcr],
              Or.inr ⟨chunks, db, e2, rfl, hcv, hcr,
                by simp [upload_try, hsz, hls, hcv, hcr]⟩⟩
          | ok chain => simp [upload_try, hsz, hls, hcv, hcr] at he

/-- Witness for the amended C1: in the chain-creation-failure run of the
counterexample, `rag_chain` indeed keeps its prior value. -/
theorem upload_session_replacement_witness :
    (upload_try envChainFail reqPdf (uploadPath envChainFail reqPdf) st0.session).2.rag_chain =
      st0.session.rag_chain :=
  ((upload_session_replacement envChainFail reqPdf st0 rfl).2.2 (.generic "boom") rfl).1

/-! ## The vector-store `add` call (C8) -/

/-- C8: when the embedding client returns one vector per input string, the
four sequences handed to the collection `add` all have length equal to the
number of chunks; the target collection is freshly created (empty), and the
ids are exactly the uuids freshly drawn for this upload. -/
theorem vector_store_add_call_shape (embed : List String → Except PyErr (List (List Int)))
    (uuids : Nat → String) (chunks : List Chunk) (call : AddCall)
    (hlen : ∀ docs embs, embed docs = .ok embs → embs.length = docs.length)
    (hok : vector_store_add_call embed uuids chunks = .ok call) :
    call.ids.length = chunks.length ∧
    call.embeddings.length = chunks.length ∧
    call.documents.length = chunks.length ∧
    call.metadatas.length = chunks.length ∧
    call.target.entries = [] ∧
    call.ids = (List.range chunks.length).map (fun i => uuids (i + 1)) := by
  cases hemb : embed (chunks.map (·.page_content)) with
  | error e => simp [vector_store_add_call, hemb] at hok
  | ok embs =>
    simp only [vector_store_add_call, hemb, Except.ok.injEq] at hok
    subst hok
    refine ⟨?_, ?_, ?_, ?_, rfl, ?_⟩ <;>
      simp [List.length_map, List.length_range, hlen _ _ hemb]

/-- Witness for C8 on a one-chunk upload with a total embedding oracle. -/
theorem vector_store_add_call_shape_witness :
    ({ ids := ["u"], embeddings := [[1, 2]], documents := ["alpha"],
       metadatas := [[("page", "1")]],
       target := { name := "pdf_chat_u", entries := [] } } : AddCall).ids.length = 1 :=
  (vector_store_add_call_shape envOk.embed envOk.uuids [chunkA] _
    (by intro docs embs h; simp [envOk] at h; subst h; simp) rfl).1

end PdfChat
